import Mathlib

deriving instance DecidableEq for Except

/-!
Verification of the micropython-sparkplugb edge-node library.

This file gives a shallow embedding of the two source modules,
`sparkplugb/payload.py` (the Sparkplug B payload codec) and
`sparkplugb/edge_node.py` (the session state machine), and proves the
frozen claims about them.

Modelling conventions:
* Python machine values are modelled by the sum type `PValue`; Python
  floats are modelled as rationals (`ℚ`), so IEEE-754 rounding and NaN
  are outside the model.  Where a branch of the code manipulates raw
  IEEE bit patterns (`FloatArray`/`DoubleArray` decoding) the value is
  kept as its undecoded little-endian words.
* Byte strings are modelled as `List Nat` (each entry one byte).
* Stateful methods of `SparkplugBEdgeNode` become functions
  `NodeState → ... → NodeState × List Action`; effects on the MQTT
  client, the bdSeq file and stdout are recorded as `Action`s in
  program order.  `print` diagnostics become `Action.report`;
  `self._debug` diagnostics (active only with the debug flag) are not
  recorded.
* Wall-clock timestamps placed into outgoing payloads are abstracted to
  a `hasTimestamp` flag; no claim concerns their numeric value.
* User-supplied command callbacks are opaque: executing one is recorded
  as an `Action.invoke` carrying the extracted value, the one built-in
  callback ("Node Control/Rebirth") is executed concretely.
-/

namespace SparkplugB

/-! ### Python values (runtime kinds relevant to the library) -/

/-- Runtime type tags, mirroring Python's `type(...)`: `bool` is a distinct
type from `int`, decoded numeric arrays are tuples, decoded boolean/string
arrays are lists, a decoded DataSet is a dict. -/
inductive PKind where
  | int | float | bool | str | bytes | tuple | list | dict
deriving DecidableEq

/-- One element of a decoded DataSet row (the `_datasetvalue_schema` record,
absent fields `None`). -/
structure DSElement where
  int_value : Option Int := none
  long_value : Option Int := none
  float_value : Option ℚ := none
  double_value : Option ℚ := none
  boolean_value : Option Bool := none
  string_value : Option String := none
deriving DecidableEq

/-- One decoded DataSet row (the `_row_schema` record). -/
structure DSRow where
  elements : Option (List DSElement) := none
deriving DecidableEq

/-- A decoded DataSet (the `_dataset_schema` record, absent fields `None`). -/
structure DSDict where
  num_of_columns : Option Nat := none
  columns : Option (List String) := none
  types : Option (List Nat) := none
  rows : Option (List DSRow) := none
deriving DecidableEq

/-- Python values flowing through the library: metric values supplied by the
application and values produced by `_get_metric_value`.  `intArr` stands for
a tuple of ints (the result of `struct.unpack` on integer arrays), `floatRaw`
for a tuple of floats kept as undecoded 32/64-bit little-endian words,
`boolArr`/`strArr` for the lists produced by the BooleanArray/StringArray
decoders (strings as UTF-8 byte lists). -/
inductive PValue where
  | int (n : Int)
  | float (q : ℚ)
  | bool (b : Bool)
  | str (s : String)
  | bytes (bs : List Nat)
  | intArr (l : List Int)
  | floatRaw (words : List Nat)
  | boolArr (l : List Bool)
  | strArr (l : List (List Nat))
  | dataset (d : DSDict)
deriving DecidableEq

/-- Numeric view used by Python's `==`: `bool`, `int` and `float` values of
equal numeric value compare equal across kinds (`1 == 1.0`, `True == 1`). -/
def pvToRat? : PValue → Option ℚ
  | .int n => some (n : ℚ)
  | .float q => some q
  | .bool b => some (if b then 1 else 0)
  | _ => none

/-- Python `==` on the modelled value universe.  Numeric kinds compare
numerically; all other comparisons are intra-kind.  Cross-kind comparisons
between integer tuples and IEEE float tuples are outside the rational model
and yield `false`. -/
def pyEq (v1 v2 : PValue) : Bool :=
  match pvToRat? v1, pvToRat? v2 with
  | some a, some b => a == b
  | _, _ =>
    match v1, v2 with
    | .str s, .str t => s == t
    | .bytes a, .bytes b => a == b
    | .intArr a, .intArr b => a == b
    | .floatRaw a, .floatRaw b => a == b
    | .boolArr a, .boolArr b => a == b
    | .strArr a, .strArr b => a == b
    | .dataset a, .dataset b => a == b
    | _, _ => false

/-- Python `type(...)` of a modelled value. -/
def pvKind : PValue → PKind
  | .int _ => .int
  | .float _ => .float
  | .bool _ => .bool
  | .str _ => .str
  | .bytes _ => .bytes
  | .intArr _ => .tuple
  | .floatRaw _ => .tuple
  | .boolArr _ => .list
  | .strArr _ => .list
  | .dataset _ => .dict

/-- Python truthiness of an extracted command value (`None` is falsy, numbers
are truthy iff nonzero, containers iff nonempty). -/
def truthy : Option PValue → Bool
  | none => false
  | some (.int n) => n != 0
  | some (.float q) => q != 0
  | some (.bool b) => b
  | some (.str s) => s != ""
  | some (.bytes bs) => !bs.isEmpty
  | some (.intArr l) => !l.isEmpty
  | some (.floatRaw l) => !l.isEmpty
  | some (.boolArr l) => !l.isEmpty
  | some (.strArr l) => !l.isEmpty
  | some (.dataset _) => true

/-! ### Datatype codes (`payload.py`, class `DataType`) -/

namespace DataType

def Unknown : Nat := 0
def Int8 : Nat := 1
def Int16 : Nat := 2
def Int32 : Nat := 3
def Int64 : Nat := 4
def UInt8 : Nat := 5
def UInt16 : Nat := 6
def UInt32 : Nat := 7
def UInt64 : Nat := 8
def Float : Nat := 9
def Double : Nat := 10
def Boolean : Nat := 11
def String : Nat := 12
def DateTime : Nat := 13
def Text : Nat := 14
def UUID : Nat := 15
def DataSet : Nat := 16
def Bytes : Nat := 17
def File : Nat := 18
def Template : Nat := 19
def PropertySet : Nat := 20
def PropertySetList : Nat := 21
def Int8Array : Nat := 22
def Int16Array : Nat := 23
def Int32Array : Nat := 24
def Int64Array : Nat := 25
def UInt8Array : Nat := 26
def UInt16Array : Nat := 27
def UInt32Array : Nat := 28
def UInt64Array : Nat := 29
def FloatArray : Nat := 30
def DoubleArray : Nat := 31
def BooleanArray : Nat := 32
def StringArray : Nat := 33
def DateTimeArray : Nat := 34

end DataType

/-! ### Byte-level helpers for the codec -/

/-- Exceptions the codec can raise while extracting a metric value:
`structError` for a `struct.unpack` size mismatch, `typeError` for an
operation on a value of the wrong type (e.g. `len(None)`). -/
inductive PyErr where
  | structError
  | typeError
deriving DecidableEq

/-- Fuel-driven worker for `chunksOf` (structural recursion so that concrete
inputs evaluate inside the kernel). -/
def chunksGo (w : Nat) : Nat → List α → List (List α)
  | _, [] => []
  | 0, _ :: _ => []
  | fuel + 1, a :: l => ((a :: l).take w) :: chunksGo w fuel ((a :: l).drop w)

/-- Split a list into consecutive chunks of width `w` (the grouping performed
by `struct.unpack` with a repeat count); the final chunk may be short when
the length is not a multiple of `w`. -/
def chunksOf (w : Nat) (l : List α) : List (List α) :=
  chunksGo w l.length l

/-- Value of a little-endian byte sequence. -/
def leValue (bs : List Nat) : Nat :=
  bs.foldr (fun b acc => b + 256 * acc) 0

/-- Reinterpret a `w`-byte unsigned value as two's-complement signed, as the
signed `struct` codes do. -/
def toSigned (w : Nat) (n : Nat) : Int :=
  if n < 2 ^ (8 * w - 1) then (n : Int) else (n : Int) - 2 ^ (8 * w)

/-- `struct.pack("<I", n)`: 4-byte little-endian, raising `struct.error` when
the value does not fit in 32 bits. -/
def pack_u32 (n : Nat) : Except PyErr (List Nat) :=
  if n < 2 ^ 32 then
    .ok [n % 256, n / 256 % 256, n / 2 ^ 16 % 256, n / 2 ^ 24 % 256]
  else .error .structError

/-- `struct.unpack("<I", bs[:4])`: value of the first four bytes, little
endian (callers check the length first). -/
def unpack_u32 : List Nat → Nat
  | a :: b :: c :: d :: _ => a + 256 * b + 2 ^ 16 * c + 2 ^ 24 * d
  | _ => 0

/-- The eight bits of a byte, most significant first — the digit string
produced by formatting a byte with f-string code 08b. -/
def byteToBits (n : Nat) : List Bool :=
  [n.testBit 7, n.testBit 6, n.testBit 5, n.testBit 4,
   n.testBit 3, n.testBit 2, n.testBit 1, n.testBit 0]

/-- Value of a most-significant-bit-first bit string, as `int(s, 2)` reads
the binary digit string built from the boolean values. -/
def bitsToByte (bits : List Bool) : Nat :=
  bits.foldl (fun acc b => 2 * acc + (if b then 1 else 0)) 0

/-- Zero-pad a bit string on the right to a byte boundary, mirroring
`binary_string_padded` in `_Payload.add_metric`. -/
def padBits (bits : List Bool) : List Bool :=
  bits ++ List.replicate (8 * ((bits.length + 7) / 8) - bits.length) false

/-- The packed-bit section of an encoded BooleanArray: the padded bit string
cut into bytes, each read most-significant-bit-first. -/
def boolArrayBytes (value : List Bool) : List Nat :=
  (chunksOf 8 (padBits value)).map bitsToByte

/-- `_Payload.add_metric`, `DataType.BooleanArray` branch: a 4-byte
little-endian element count followed by the bit-packed values. -/
def booleanArrayEncode (value : List Bool) : Except PyErr (List Nat) :=
  (pack_u32 value.length).map (· ++ boolArrayBytes value)

/-- `"\0".join(value)` at the byte level. -/
def nulJoin : List (List Nat) → List Nat
  | [] => []
  | [s] => s
  | s :: rest => s ++ 0 :: nulJoin rest

/-- `_Payload.add_metric`, `DataType.StringArray` branch: the elements joined
by NUL plus one trailing NUL terminator.  (The source writes the terminator
as a one-character string concatenated onto the UTF-8 bytes; under
MicroPython — the library's platform — str/bytes concatenation is permitted
and appends the single byte 0.) -/
def stringArrayEncode (value : List (List Nat)) : List Nat :=
  nulJoin value ++ [0]

/-- Python `s.split(sep)` for a single-byte separator 0: every occurrence
splits, empty segments included, and the result is never empty. -/
def splitOnZero : List Nat → List (List Nat)
  | [] => [[]]
  | b :: rest =>
    if b = 0 then [] :: splitOnZero rest
    else
      match splitOnZero rest with
      | s :: ss => (b :: s) :: ss
      | [] => [[b]]

/-! ### Decoded metric records and `_get_metric_value` -/

/-- A metric record as produced by decoding an inbound payload: every schema
field is present, unset wire fields are `None` (the framer fills absent
fields on decode).  The framing-only fields the handler never reads
(`alias`, `timestamp`, `is_historical`, `is_transient`, `is_null`,
`metadata`, `properties`) are omitted. -/
structure RawMetric where
  name : Option String := none
  datatype : Option Nat := none
  int_value : Option Int := none
  long_value : Option Int := none
  float_value : Option ℚ := none
  double_value : Option ℚ := none
  boolean_value : Option Bool := none
  string_value : Option String := none
  bytes_value : Option (List Nat) := none
  dataset_value : Option DSDict := none
deriving DecidableEq

/-- Helper for the fixed-width array branches of `_get_metric_value`: check
the byte length is an exact multiple of the element width (otherwise
`struct.unpack` raises) and split into little-endian element values. -/
def unpackWords (w : Nat) (bs : List Nat) : Except PyErr (List Nat) :=
  if bs.length % w = 0 then .ok ((chunksOf w bs).map leValue)
  else .error .structError

/-- `_get_metric_value(metric, datatype=None)` from `payload.py`.  A decoded
record always contains the `datatype` key (absent wire fields are filled
with `None` on decode), so the record's own field always overrides the
`fallback` datatype supplied by the caller, exactly as the source's
membership test does.  Returns `none` for the source's reported
"value could not be returned" cases, and an error when the source would
raise. -/
def get_metric_value (m : RawMetric) (fallback : Option Nat) :
    Except PyErr (Option PValue) :=
  let _ := fallback
  match m.datatype with
  | none => .ok none
  | some dt =>
    if dt = DataType.Int8 then .ok (m.int_value.map .int)
    else if dt = DataType.Int16 then .ok (m.int_value.map .int)
    else if dt = DataType.Int32 then .ok (m.int_value.map .int)
    else if dt = DataType.Int64 then .ok (m.long_value.map .int)
    else if dt = DataType.UInt8 then .ok (m.int_value.map .int)
    else if dt = DataType.UInt16 then .ok (m.int_value.map .int)
    else if dt = DataType.UInt32 then .ok (m.int_value.map .int)
    else if dt = DataType.UInt64 then .ok (m.long_value.map .int)
    else if dt = DataType.Float then .ok (m.float_value.map .float)
    else if dt = DataType.Double then .ok (m.double_value.map .float)
    else if dt = DataType.Boolean then .ok (m.boolean_value.map .bool)
    else if dt = DataType.String then .ok (m.string_value.map .str)
    else if dt = DataType.DateTime then .ok (m.long_value.map .int)
    else if dt = DataType.Text then .ok (m.string_value.map .str)
    else if dt = DataType.UUID then .ok (m.string_value.map .str)
    else if dt = DataType.DataSet then .ok (m.dataset_value.map .dataset)
    else if dt = DataType.Bytes then .ok (m.bytes_value.map .bytes)
    else if dt = DataType.File then .ok (m.bytes_value.map .bytes)
    else if dt = DataType.Int8Array then
      match m.bytes_value with
      | none => .error .typeError
      | some bs => .ok (some (.intArr (bs.map (toSigned 1))))
    else if dt = DataType.Int16Array then
      match m.bytes_value with
      | none => .error .typeError
      | some bs => (unpackWords 2 bs).map fun l => some (.intArr (l.map (toSigned 2)))
    else if dt = DataType.Int32Array then
      match m.bytes_value with
      | none => .error .typeError
      | some bs => (unpackWords 4 bs).map fun l => some (.intArr (l.map (toSigned 4)))
    else if dt = DataType.Int64Array then
      match m.bytes_value with
      | none => .error .typeError
      | some bs => (unpackWords 8 bs).map fun l => some (.intArr (l.map (toSigned 8)))
    else if dt = DataType.UInt8Array then
      match m.bytes_value with
      | none => .error .typeError
      | some bs => .ok (some (.intArr (bs.map fun b => (b : Int))))
    else if dt = DataType.UInt16Array then
      match m.bytes_value with
      | none => .error .typeError
      | some bs => (unpackWords 2 bs).map fun l => some (.intArr (l.map fun n => (n : Int)))
    else if dt = DataType.UInt32Array then
      match m.bytes_value with
      | none => .error .typeError
      | some bs => (unpackWords 4 bs).map fun l => some (.intArr (l.map fun n => (n : Int)))
    else if dt = DataType.UInt64Array then
      match m.bytes_value with
      | none => .error .typeError
      | some bs => (unpackWords 8 bs).map fun l => some (.intArr (l.map fun n => (n : Int)))
    else if dt = DataType.FloatArray then
      match m.bytes_value with
      | none => .error .typeError
      | some bs => (unpackWords 4 bs).map fun l => some (.floatRaw l)
    else if dt = DataType.DoubleArray then
      match m.bytes_value with
      | none => .error .typeError
      | some bs => (unpackWords 8 bs).map fun l => some (.floatRaw l)
    else if dt = DataType.BooleanArray then
      match m.bytes_value with
      | none => .error .typeError
      | some bs =>
        if bs.length < 4 then .error .structError
        else
          let count := unpack_u32 (bs.take 4)
          .ok (some (.boolArr ((((bs.drop 4).map byteToBits).flatten).take count)))
    else if dt = DataType.StringArray then
      match m.bytes_value with
      | none => .error .typeError
      | some bs => .ok (some (.strArr ((splitOnZero bs).dropLast)))
    else if dt = DataType.DateTimeArray then
      match m.bytes_value with
      | none => .error .typeError
      | some bs => (unpackWords 8 bs).map fun l => some (.intArr (l.map (toSigned 8)))
    else .ok none

/-! ### The edge node (`edge_node.py`) -/

/-- Construction-time identity of the node. -/
structure Config where
  group_id : String
  edge_node_id : String
  primary_host_application_id : Option String
deriving DecidableEq

/-- The five Sparkplug topics the node uses. -/
inductive Topic where
  | nbirth | ndeath | ndata | ncmd | hostState
deriving DecidableEq

/-- Verbatim topic-string construction from the configured identifiers. -/
def topicString (cfg : Config) : Topic → String
  | .nbirth => "spBv1.0/" ++ cfg.group_id ++ "/NBIRTH/" ++ cfg.edge_node_id
  | .ndeath => "spBv1.0/" ++ cfg.group_id ++ "/NDEATH/" ++ cfg.edge_node_id
  | .ndata => "spBv1.0/" ++ cfg.group_id ++ "/NDATA/" ++ cfg.edge_node_id
  | .ncmd => "spBv1.0/" ++ cfg.group_id ++ "/NCMD/" ++ cfg.edge_node_id
  | .hostState =>
    "spBv1.0/STATE/" ++ cfg.primary_host_application_id.getD "None"

/-- An in-memory outgoing payload (`_Payload`): whether a payload timestamp
is attached, the optional seq number, and the ordered metric list as
(name, datatype, value) triples.  The binary wire encoding of outgoing
payloads (`_encode_payload`) is external framing and is not re-modelled
here; codec claims are settled on the byte-level value encodings above. -/
structure PayloadData where
  hasTimestamp : Bool
  seq : Option Nat
  metrics : List (String × Nat × PValue)
deriving DecidableEq

/-- A registered command callback: the built-in rebirth handler installed by
the constructor, or an opaque application callback identified by a tag. -/
inductive Cmd where
  | rebirth
  | user (id : Nat)
deriving DecidableEq

/-- Externally observable effects, recorded in program order. -/
inductive Action where
  | publish (t : Topic) (p : PayloadData) (qos : Nat) (retain : Bool)
  | setLastWill (t : Topic) (p : PayloadData) (qos : Nat) (retain : Bool)
  | setCallback
  | mqttConnect
  | mqttDisconnect
  | saveBdSeq (n : Nat)
  | subscribe (t : Topic) (qos : Nat)
  | invoke (name : String) (v : Option PValue)
  | report (msg : String)
deriving DecidableEq

/-- The mutable state of a `SparkplugBEdgeNode`. -/
structure NodeState where
  cfg : Config
  connected : Bool
  sparkplug_session_established : Bool
  bdSeq : Nat
  seq : Nat
  metrics : List (String × Nat × PValue)
  commands : List (String × Cmd)
  prevHostMsg : Option (Int × Bool)
deriving DecidableEq

/-- Ordered-dict lookup on the metric store. -/
def storeGet : List (String × Nat × PValue) → String → Option (Nat × PValue)
  | [], _ => none
  | (k, dt, v) :: rest, name =>
    if k = name then some (dt, v) else storeGet rest name

/-- Ordered-dict value update in place (`self.metrics[name] = (dt, value)` on
an existing key keeps its position). -/
def storeSet : List (String × Nat × PValue) → String → PValue →
    List (String × Nat × PValue)
  | [], _, _ => []
  | (k, dt, old) :: rest, name, v =>
    if k = name then (k, dt, v) :: rest else (k, dt, old) :: storeSet rest name v

/-- Ordered-dict deletion (`del self.metrics[name]`). -/
def storeRemove : List (String × Nat × PValue) → String →
    List (String × Nat × PValue)
  | [], _ => []
  | (k, dt, v) :: rest, name =>
    if k = name then rest else (k, dt, v) :: storeRemove rest name

/-- Ordered-dict lookup on the command table. -/
def cmdGet : List (String × Cmd) → String → Option Cmd
  | [], _ => none
  | (k, c) :: rest, name => if k = name then some c else cmdGet rest name

/-- Ordered-dict assignment on the command table (`self.commands[name] = cb`
overwrites in place or appends). -/
def cmdSet : List (String × Cmd) → String → Cmd → List (String × Cmd)
  | [], name, c => [(name, c)]
  | (k, old) :: rest, name, c =>
    if k = name then (k, c) :: rest else (k, old) :: cmdSet rest name c

/-- Ordered-dict deletion on the command table. -/
def cmdRemove : List (String × Cmd) → String → List (String × Cmd)
  | [], _ => []
  | (k, c) :: rest, name =>
    if k = name then rest else (k, c) :: cmdRemove rest name

/-- `_are_values_equal(value1, value2)`: Python equality first, then the
runtime-type guard, then the 1e-5 float tolerance (the source's literal
`0.00001` is modelled as the exact rational 1/100000). -/
def are_values_equal (value1 value2 : PValue) : Bool :=
  if pyEq value1 value2 then true
  else if pvKind value1 ≠ pvKind value2 then false
  else
    match value1, value2 with
    | .float q1, .float q2 => |q1 - q2| < 1 / 100000
    | _, _ => false

/-- `_increment_bdSeq`. -/
def increment_bdSeq (st : NodeState) : NodeState :=
  { st with bdSeq := (st.bdSeq + 1) % 256 }

/-- `_increment_seq`. -/
def increment_seq (st : NodeState) : NodeState :=
  { st with seq := (st.seq + 1) % 256 }

/-- `_get_ndeath_payload`: no payload timestamp, no seq, the single bdSeq
metric. -/
def get_ndeath_payload (st : NodeState) : PayloadData :=
  { hasTimestamp := false, seq := none,
    metrics := [("bdSeq", DataType.Int64, .int (st.bdSeq : Int))] }

/-- `_get_nbirth_payload`: timestamped, current seq, the bdSeq metric
followed by the full metric store in insertion order. -/
def get_nbirth_payload (st : NodeState) : PayloadData :=
  { hasTimestamp := true, seq := some st.seq,
    metrics := ("bdSeq", DataType.Int64, .int (st.bdSeq : Int)) :: st.metrics }

/-- `_get_ndata_payload(changed_metrics)`: timestamped, current seq, the
named metrics snapshotted from the store (callers only pass names present
in the store). -/
def get_ndata_payload (st : NodeState) (changed_metrics : List String) :
    PayloadData :=
  { hasTimestamp := true, seq := some st.seq,
    metrics := changed_metrics.filterMap fun n =>
      (storeGet st.metrics n).map fun p => (n, p.1, p.2) }

/-- `_publish_nbirth`: publish at QoS 0, then increment seq. -/
def publish_nbirth (st : NodeState) : NodeState × List Action :=
  (increment_seq st, [.publish .nbirth (get_nbirth_payload st) 0 false])

/-- `_publish_ndeath`: publish at QoS 1; seq untouched. -/
def publish_ndeath (st : NodeState) : NodeState × List Action :=
  (st, [.publish .ndeath (get_ndeath_payload st) 1 false])

/-- `_publish_ndata(changed_metrics)`: publish at QoS 0, then increment
seq. -/
def publish_ndata (st : NodeState) (changed_metrics : List String) :
    NodeState × List Action :=
  (increment_seq st,
   [.publish .ndata (get_ndata_payload st changed_metrics) 0 false])

/-- `_establish_sparkplug_session`: set the flag, then publish the birth. -/
def establish_sparkplug_session (st : NodeState) : NodeState × List Action :=
  publish_nbirth { st with sparkplug_session_established := true }

/-- `_terminate_sparkplug_session`: clear the flag, then publish the
death. -/
def terminate_sparkplug_session (st : NodeState) : NodeState × List Action :=
  publish_ndeath { st with sparkplug_session_established := false }

/-- The timestamp gate of `_handle_primary_host_application_state_msg`:
accept when no message was seen yet or the incoming timestamp is at least
the last accepted one. -/
def acceptHost : Option (Int × Bool) → Int → Bool
  | none, _ => true
  | some (t0, _), t => t ≥ t0

/-- `_handle_primary_host_application_state_msg` after JSON decoding: gate on
the timestamp, store the accepted pair, then transition on a flag/session
mismatch. -/
def handle_primary_host_state (st : NodeState) (timestamp : Int)
    (online : Bool) : NodeState × List Action :=
  if acceptHost st.prevHostMsg timestamp then
    let st1 := { st with prevHostMsg := some (timestamp, online) }
    if online && !st1.sparkplug_session_established then
      establish_sparkplug_session st1
    else if !online && st1.sparkplug_session_established then
      terminate_sparkplug_session st1
    else (st1, [])
  else (st, [])

/-- Execute a registered callback on an extracted value.  The built-in
rebirth lambda republishes the full birth when the value is truthy and the
session is established; an application callback is opaque, so only its
invocation is recorded. -/
def runCmd (st : NodeState) (c : Cmd) (name : String) (v : Option PValue) :
    NodeState × List Action :=
  match c with
  | .rebirth =>
    if truthy v && st.sparkplug_session_established then
      let (st1, a1) := publish_nbirth st
      (st1, .invoke name v :: a1)
    else (st, [.invoke name v])
  | .user _ => (st, [.invoke name v])

/-- The datatype hint `_handle_ncmd_msg` passes to `_get_metric_value`: the
stored datatype of the same-named metric, when one exists. -/
def hintFor (st : NodeState) (m : RawMetric) : Option Nat :=
  m.name.bind fun n => (storeGet st.metrics n).map Prod.fst

/-- The per-metric dispatch of `_handle_ncmd_msg`: run the registered
callback for the metric's name on the extracted value; a `None` name or an
unregistered name is reported and skipped. -/
def dispatchMetric (st : NodeState) (m : RawMetric) (v : Option PValue) :
    NodeState × List Action :=
  match m.name with
  | some name =>
    match cmdGet st.commands name with
    | some c => runCmd st c name v
    | none => (st, [])
  | none => (st, [])

/-- The metric loop of `_handle_ncmd_msg`: extract each metric's value, then
dispatch to the registered callback if any.  An exception raised by the
extraction aborts the loop and is returned (to be caught by `_handle_msg`),
leaving the remaining metrics unprocessed. -/
def handleNcmdGo (st : NodeState) : List RawMetric →
    NodeState × List Action × Option PyErr
  | [] => (st, [], none)
  | m :: rest =>
    match get_metric_value m (hintFor st m) with
    | .error e => (st, [], some e)
    | .ok v =>
      let d := dispatchMetric st m v
      let r := handleNcmdGo d.1 rest
      (r.1, d.2 ++ r.2.1, r.2.2)

/-- `_handle_ncmd_msg` as dispatched through `_handle_msg`: the metric loop,
with an escaping exception caught and reported at message level. -/
def handle_ncmd_msg (st : NodeState) (ms : List RawMetric) :
    NodeState × List Action :=
  let r := handleNcmdGo st ms
  (r.1, r.2.1 ++ match r.2.2 with
    | none => []
    | some _ => [.report "Error while handling message"])

/-- `connect()`.  `ok` tells whether the transport's physical connect
succeeds; on failure the raised exception propagates, so nothing after the
connect call runs (in particular the incremented bdSeq is not saved).  The
two background asyncio tasks started here are scheduling machinery and are
not modelled. -/
def connect (st : NodeState) (ok : Bool) : NodeState × List Action :=
  let st1 := increment_bdSeq st
  let pre : List Action :=
    [.setLastWill .ndeath (get_ndeath_payload st1) 1 false, .setCallback,
     .mqttConnect]
  if ok then
    let st2 := { st1 with connected := true }
    let post : List Action :=
      [.saveBdSeq st2.bdSeq, .report "Connected to MQTT Broker",
       .subscribe .ncmd 1]
    match st2.cfg.primary_host_application_id with
    | some _ => (st2, pre ++ post ++ [.subscribe .hostState 1])
    | none =>
      let (st3, a3) := establish_sparkplug_session st2
      (st3, pre ++ post ++ a3)
  else (st1, pre)

/-- `disconnect()`. -/
def disconnect (st : NodeState) : NodeState × List Action :=
  let (st1, a1) :=
    if st.sparkplug_session_established then terminate_sparkplug_session st
    else (st, [])
  ({ st1 with connected := false }, a1 ++ [.mqttDisconnect])

/-- `set_metric_value(name, value)`. -/
def set_metric_value (st : NodeState) (name : String) (value : PValue) :
    NodeState × List Action :=
  match storeGet st.metrics name with
  | none =>
    (st, [.report ("Metric " ++ name ++ " does not exist. Not setting value.")])
  | some (_, old) =>
    if are_values_equal value old then (st, [])
    else
      let st1 := { st with metrics := storeSet st.metrics name value }
      if st1.sparkplug_session_established then publish_ndata st1 [name]
      else (st1, [])

/-- `add_data_metric(name, datatype, value)`. -/
def add_data_metric (st : NodeState) (name : String) (datatype : Nat)
    (value : PValue) : NodeState × List Action :=
  if (storeGet st.metrics name).isSome then
    (st, [.report ("Metric " ++ name ++ " already exists. Not adding.")])
  else
    let st1 := { st with metrics := st.metrics ++ [(name, datatype, value)] }
    if st1.sparkplug_session_established then publish_nbirth st1
    else (st1, [])

/-- `add_command_metric(name, datatype, value, callback)`: the callback is
installed in the command table first, then the metric add is attempted. -/
def add_command_metric (st : NodeState) (name : String) (datatype : Nat)
    (value : PValue) (callback : Cmd) : NodeState × List Action :=
  add_data_metric { st with commands := cmdSet st.commands name callback }
    name datatype value

/-- `remove_metric(name)`. -/
def remove_metric (st : NodeState) (name : String) : NodeState × List Action :=
  if (storeGet st.metrics name).isNone then
    (st, [.report ("Metric " ++ name ++ " does not exist. Not removing.")])
  else
    let st1 :=
      { st with metrics := storeRemove st.metrics name,
                commands := if (cmdGet st.commands name).isSome then
                    cmdRemove st.commands name
                  else st.commands }
    if st1.sparkplug_session_established then publish_nbirth st1
    else (st1, [])

/-- The state right after `__init__`: `bdSeq0` is the result of
`_load_bdSeq()` — the persisted value, or 0 when the file cannot be
read.  The rebirth metric and its command are pre-registered. -/
def initState (cfg : Config) (bdSeq0 : Nat) : NodeState :=
  { cfg := cfg, connected := false, sparkplug_session_established := false,
    bdSeq := bdSeq0, seq := 0,
    metrics := [("Node Control/Rebirth", DataType.Boolean, .bool false)],
    commands := [("Node Control/Rebirth", .rebirth)],
    prevHostMsg := none }

/-- External stimuli driving the node. -/
inductive Event where
  | connect (ok : Bool)
  | disconnect
  | hostMsg (t : Int) (online : Bool)
  | ncmd (ms : List RawMetric)
  | setMetric (name : String) (v : PValue)
  | addData (name : String) (dt : Nat) (v : PValue)
  | addCommand (name : String) (dt : Nat) (v : PValue) (cb : Nat)
  | removeMetric (name : String)

/-- One step of the node: dispatch an event to the corresponding method. -/
def step (st : NodeState) : Event → NodeState × List Action
  | .connect ok => connect st ok
  | .disconnect => disconnect st
  | .hostMsg t online => handle_primary_host_state st t online
  | .ncmd ms => handle_ncmd_msg st ms
  | .setMetric n v => set_metric_value st n v
  | .addData n dt v => add_data_metric st n dt v
  | .addCommand n dt v cb => add_command_metric st n dt v (.user cb)
  | .removeMetric n => remove_metric st n

/-- Run a sequence of events, concatenating the recorded actions. -/
def runEvents (st : NodeState) : List Event → NodeState × List Action
  | [] => (st, [])
  | e :: es =>
    let r1 := step st e
    let r2 := runEvents r1.1 es
    (r2.1, r1.2 ++ r2.2)

/-- States reachable from construction.  The initial bdSeq is what
`_load_bdSeq` returned: 0 on any read failure, or a previously persisted
value — values the node itself persists are below 256 (see the range
claim), so the loaded value is constrained accordingly. -/
inductive Reachable : NodeState → Prop
  | init (cfg : Config) (bdSeq0 : Nat) (h : bdSeq0 < 256) :
      Reachable (initState cfg bdSeq0)
  | next (st : NodeState) (ev : Event) (h : Reachable st) :
      Reachable (step st ev).1

/-- The birth payloads among a list of recorded actions. -/
def birthPayloads (acts : List Action) : List PayloadData :=
  acts.filterMap fun a =>
    match a with
    | .publish .nbirth p _ _ => some p
    | _ => none

/-- Recognizer for a published birth certificate. -/
def isBirthPub : Action → Bool
  | .publish .nbirth _ _ _ => true
  | _ => false

/-- Recognizer for a published death certificate. -/
def isDeathPub : Action → Bool
  | .publish .ndeath _ _ _ => true
  | _ => false

/-- Recognizer for any publish action. -/
def isPublish : Action → Bool
  | .publish _ _ _ _ => true
  | _ => false

/-- A concrete configuration for witnesses and counterexamples. -/
def demoCfg : Config :=
  { group_id := "g", edge_node_id := "n",
    primary_host_application_id := some "h" }

/-- A concrete established state holding one Double metric of value 1.0. -/
def demoFloatState : NodeState :=
  { (initState demoCfg 0) with
    sparkplug_session_established := true,
    metrics := [("m", DataType.Double, .float 1)] }

/-- A concrete established state (otherwise freshly constructed). -/
def demoEstState : NodeState :=
  { (initState demoCfg 0) with sparkplug_session_established := true }

/-- A command metric whose BooleanArray bytes are too short for the 4-byte
count header: extracting its value raises `struct.error`. -/
def badBoolArrayMetric : RawMetric :=
  { name := some "x", datatype := some DataType.BooleanArray,
    bytes_value := some [1, 0] }

/-- A well-formed Boolean command metric named for the registered rebirth
command. -/
def goodRebirthMetric : RawMetric :=
  { name := some "Node Control/Rebirth", datatype := some DataType.Boolean,
    boolean_value := some false }

/-- A decoded metric consisting of a datatype tag and a byte-string value
slot — the shape a decoded array metric takes. -/
def bytesMetric (dt : Nat) (bs : List Nat) : RawMetric :=
  { datatype := some dt, bytes_value := some bs }

/-- The 9-element boolean sequence of the BooleanArray round-trip claim. -/
def demoBools : List Bool :=
  [true, false, true, true, false, false, false, false, true]

/-! ### Codec lemmas -/

theorem byteToBits_bitsToByte :
    ∀ a b c d e f g h : Bool,
      byteToBits (bitsToByte [a, b, c, d, e, f, g, h]) =
        [a, b, c, d, e, f, g, h] := by
  decide

theorem byteToBits_bitsToByte_len (c : List Bool) (h : c.length = 8) :
    byteToBits (bitsToByte c) = c :=
  match c, h with
  | [a, b, c1, d, e, f, g, i], _ => byteToBits_bitsToByte a b c1 d e f g i

theorem chunksGo_bits_flatten :
    ∀ (fuel : Nat) (l : List Bool), l.length ≤ fuel → l.length % 8 = 0 →
      ((chunksGo 8 fuel l).map fun c => byteToBits (bitsToByte c)).flatten
        = l := by
  intro fuel
  induction fuel with
  | zero =>
    intro l hle _
    have : l = [] := List.eq_nil_of_length_eq_zero (Nat.le_zero.mp hle)
    subst this
    rfl
  | succ n ih =>
    intro l hle h8
    match l with
    | [] => rfl
    | a :: t =>
      simp only [List.length_cons] at hle h8
      have hlen8 : 8 ≤ t.length + 1 := by omega
      have htake : ((a :: t).take 8).length = 8 := by
        simp only [List.length_take, List.length_cons]
        omega
      have hd1 : ((a :: t).drop 8).length ≤ n := by
        simp only [List.length_drop, List.length_cons]
        omega
      have hd2 : ((a :: t).drop 8).length % 8 = 0 := by
        simp only [List.length_drop, List.length_cons]
        omega
      have hstep :
          chunksGo 8 (n + 1) (a :: t)
            = ((a :: t).take 8) :: chunksGo 8 n ((a :: t).drop 8) := rfl
      rw [hstep, List.map_cons, List.flatten_cons,
          byteToBits_bitsToByte_len _ htake, ih ((a :: t).drop 8) hd1 hd2]
      exact List.take_append_drop 8 (a :: t)

theorem padBits_length_mod (bits : List Bool) :
    (padBits bits).length % 8 = 0 := by
  simp only [padBits, List.length_append, List.length_replicate]
  omega

theorem padBits_take (bits : List Bool) :
    (padBits bits).take bits.length = bits :=
  List.take_left bits _

theorem unpack_u32_pack (n : Nat) :
    unpack_u32 [n % 256, n / 256 % 256, n / 2 ^ 16 % 256, n / 2 ^ 24 % 256]
      = n % 2 ^ 32 := by
  simp only [unpack_u32]
  omega

/-- The BooleanArray branch of `_get_metric_value`, isolated. -/
theorem get_metric_value_boolArray (bs : List Nat) :
    get_metric_value (bytesMetric DataType.BooleanArray bs) none
      = if bs.length < 4 then .error .structError
        else .ok (some (.boolArr
          ((((bs.drop 4).map byteToBits).flatten).take
            (unpack_u32 (bs.take 4))))) := rfl

/-- The StringArray branch of `_get_metric_value`, isolated. -/
theorem get_metric_value_strArray (bs : List Nat) :
    get_metric_value (bytesMetric DataType.StringArray bs) none
      = .ok (some (.strArr ((splitOnZero bs).dropLast))) := rfl

/-- Encode/decode round trip for BooleanArray values whose length fits the
4-byte count. -/
theorem boolArray_roundtrip (v : List Bool) (h : v.length < 2 ^ 32) :
    ∃ bs, booleanArrayEncode v = .ok bs ∧
      get_metric_value (bytesMetric DataType.BooleanArray bs) none
        = .ok (some (.boolArr v)) := by
  refine ⟨[v.length % 256, v.length / 256 % 256, v.length / 2 ^ 16 % 256,
           v.length / 2 ^ 24 % 256] ++ boolArrayBytes v, ?_, ?_⟩
  · unfold booleanArrayEncode pack_u32
    rw [if_pos h]
    rfl
  · rw [get_metric_value_boolArray]
    have h4 : ¬ (([v.length % 256, v.length / 256 % 256,
        v.length / 2 ^ 16 % 256, v.length / 2 ^ 24 % 256]
          ++ boolArrayBytes v).length < 4) := by
      simp
    rw [if_neg h4]
    have htake : ([v.length % 256, v.length / 256 % 256,
        v.length / 2 ^ 16 % 256, v.length / 2 ^ 24 % 256]
          ++ boolArrayBytes v).take 4
        = [v.length % 256, v.length / 256 % 256, v.length / 2 ^ 16 % 256,
           v.length / 2 ^ 24 % 256] := rfl
    have hdrop : ([v.length % 256, v.length / 256 % 256,
        v.length / 2 ^ 16 % 256, v.length / 2 ^ 24 % 256]
          ++ boolArrayBytes v).drop 4 = boolArrayBytes v := rfl
    rw [htake, hdrop, unpack_u32_pack, Nat.mod_eq_of_lt h]
    have hbits : ((boolArrayBytes v).map byteToBits).flatten = padBits v := by
      rw [boolArrayBytes, List.map_map]
      exact chunksGo_bits_flatten (padBits v).length (padBits v) le_rfl
        (padBits_length_mod v)
    rw [hbits]
    have : (padBits v).take v.length = v := padBits_take v
    rw [this]

theorem splitOnZero_append (s : List Nat) (hs : 0 ∉ s) (r : List Nat) :
    splitOnZero (s ++ 0 :: r) = s :: splitOnZero r := by
  induction s with
  | nil => rfl
  | cons b t ih =>
    have hb : ¬ b = 0 := by
      intro hb0
      exact hs (by simp [hb0])
    have ht : 0 ∉ t := fun hmem => hs (List.mem_cons_of_mem _ hmem)
    rw [List.cons_append, splitOnZero]
    simp only [hb, if_false, ih ht]

theorem splitOnZero_nulJoin (l : List (List Nat)) (hl : l ≠ [])
    (hfree : ∀ s ∈ l, 0 ∉ s) :
    splitOnZero (nulJoin l ++ [0]) = l ++ [[]] := by
  induction l with
  | nil => exact absurd rfl hl
  | cons s t ih =>
    match t with
    | [] =>
      have : nulJoin [s] ++ [0] = s ++ 0 :: [] := rfl
      rw [this, splitOnZero_append s (hfree s (by simp)) []]
      rfl
    | s2 :: t2 =>
      have hjoin : nulJoin (s :: s2 :: t2) ++ [0]
          = s ++ 0 :: (nulJoin (s2 :: t2) ++ [0]) := by
        simp [nulJoin]
      rw [hjoin, splitOnZero_append s (hfree s (by simp)),
          ih (by simp) (fun x hx => hfree x (List.mem_cons_of_mem _ hx))]
      rfl

/-- Encode/decode round trip for nonempty StringArray values with NUL-free
elements. -/
theorem strArray_roundtrip (l : List (List Nat)) (hl : l ≠ [])
    (hfree : ∀ s ∈ l, 0 ∉ s) :
    get_metric_value (bytesMetric DataType.StringArray (stringArrayEncode l))
        none
      = .ok (some (.strArr l)) := by
  rw [get_metric_value_strArray, stringArrayEncode,
      splitOnZero_nulJoin l hl hfree]
  rw [List.dropLast_concat]

/-! ### Claims C3 and C9: array codec round trips -/

/-- C3 counterexample: the round trip is not the identity on every list of
NUL-free strings — encoding the empty StringArray produces the single
terminator byte, which decodes to a one-element list holding the empty
string, not to the empty list. -/
theorem C3_counterexample :
    get_metric_value
        (bytesMetric DataType.StringArray (stringArrayEncode [])) none
      = .ok (some (.strArr [[]]))
    ∧ ([[]] : List (List Nat)) ≠ [] :=
  ⟨by decide, by decide⟩

/-- C3 (amended): encoding the StringArray value consisting of the UTF-8
strings "a", "bb", "" (each element NUL-terminated, concatenated in order,
with a trailing NUL) and then extracting the metric value yields exactly
those three strings; more generally, for every nonempty list of NUL-free
strings, encode followed by decode reproduces the original list.  (The
original claim's "every list" fails only at the empty list.) -/
theorem C3_stringArray_roundtrip :
    (get_metric_value
        (bytesMetric DataType.StringArray
          (stringArrayEncode [[97], [98, 98], []])) none
      = .ok (some (.strArr [[97], [98, 98], []])))
    ∧ ∀ l : List (List Nat), l ≠ [] → (∀ s ∈ l, 0 ∉ s) →
        get_metric_value
            (bytesMetric DataType.StringArray (stringArrayEncode l)) none
          = .ok (some (.strArr l)) :=
  ⟨by decide, fun l hl hfree => strArray_roundtrip l hl hfree⟩

/-- C3 witness: the amended round trip evaluated at the concrete one-element
list holding the UTF-8 bytes of "hi". -/
theorem C3_stringArray_roundtrip_witness :
    get_metric_value
        (bytesMetric DataType.StringArray (stringArrayEncode [[104, 105]]))
        none
      = .ok (some (.strArr [[104, 105]])) :=
  C3_stringArray_roundtrip.2 [[104, 105]] (by decide) (by decide)

/-- C9: encoding the BooleanArray value
[true,false,true,true,false,false,false,false,true] as a 4-byte
little-endian count followed by most-significant-bit-first packed bits,
zero-padded to a byte boundary, and then extracting the metric value
returns the identical 9-element sequence; in general the encode/decode
pair is a round trip for every boolean list whose length fits the 4-byte
count field (a longer list is unencodable: `struct.pack` raises). -/
theorem C9_booleanArray_roundtrip :
    (∃ bs, booleanArrayEncode demoBools = .ok bs ∧
      get_metric_value (bytesMetric DataType.BooleanArray bs) none
        = .ok (some (.boolArr demoBools)))
    ∧ ∀ v : List Bool, v.length < 2 ^ 32 →
        ∃ bs, booleanArrayEncode v = .ok bs ∧
          get_metric_value (bytesMetric DataType.BooleanArray bs) none
            = .ok (some (.boolArr v)) :=
  ⟨⟨[9, 0, 0, 0, 176, 128], by decide, by decide⟩,
   fun v h => boolArray_roundtrip v h⟩

/-- C9 witness: the general round trip evaluated at the one-element list. -/
theorem C9_booleanArray_roundtrip_witness :
    ∃ bs, booleanArrayEncode [true] = .ok bs ∧
      get_metric_value (bytesMetric DataType.BooleanArray bs) none
        = .ok (some (.boolArr [true])) :=
  C9_booleanArray_roundtrip.2 [true] (by norm_num)

/-! ### Report-by-exception equality (claim C1) -/

theorem are_values_equal_iff (v1 v2 : PValue) :
    are_values_equal v1 v2 = true ↔
      pyEq v1 v2 = true ∨
        ∃ q1 q2 : ℚ, v1 = .float q1 ∧ v2 = .float q2 ∧
          |q1 - q2| < 1 / 100000 := by
  by_cases hpy : pyEq v1 v2 = true
  · simp [are_values_equal, hpy]
  · cases v1 <;> cases v2 <;> simp_all [are_values_equal, pvKind]

theorem storeGet_storeSet (ms : List (String × Nat × PValue)) (name : String)
    (dt : Nat) (old v : PValue) (h : storeGet ms name = some (dt, old)) :
    storeGet (storeSet ms name v) name = some (dt, v) := by
  induction ms with
  | nil => simp [storeGet] at h
  | cons e rest ih =>
    obtain ⟨k, dte, ve⟩ := e
    by_cases hk : k = name
    · subst hk
      simp [storeGet] at h
      simp [storeSet, storeGet, h.1]
    · simp [storeGet, hk] at h
      simp [storeSet, storeGet, hk, ih h]

theorem set_metric_value_unchanged (st : NodeState) (name : String)
    (dt : Nat) (old v : PValue)
    (hget : storeGet st.metrics name = some (dt, old))
    (heq : are_values_equal v old = true) :
    set_metric_value st name v = (st, []) := by
  simp [set_metric_value, hget, heq]

theorem set_metric_value_changed (st : NodeState) (name : String)
    (dt : Nat) (old v : PValue)
    (hget : storeGet st.metrics name = some (dt, old))
    (hne : are_values_equal v old = false)
    (hest : st.sparkplug_session_established = true) :
    set_metric_value st name v
      = ({ st with metrics := storeSet st.metrics name v,
                   seq := (st.seq + 1) % 256 },
         [.publish .ndata
            { hasTimestamp := true, seq := some st.seq,
              metrics := [(name, dt, v)] } 0 false]) := by
  simp only [set_metric_value, hget, hne, Bool.false_eq_true, if_false]
  simp only [publish_ndata, increment_seq, get_ndata_payload, List.filterMap]
  rw [storeGet_storeSet st.metrics name dt old v hget, if_pos hest]
  rfl

/-- C1 counterexample: with the session established and the stored value the
float 1.0, setting the metric to the int 1 — a value of a different runtime
kind, and not structurally equal to the stored value — is suppressed (no
publish, no state change), because Python's `==` equates 1 and 1.0.  The
claim requires a value of differing runtime kind to count as changed. -/
theorem C1_counterexample :
    set_metric_value demoFloatState "m" (.int 1) = (demoFloatState, [])
    ∧ pvKind (.int 1) ≠ pvKind (.float 1)
    ∧ (PValue.int 1) ≠ (.float 1) := by
  refine ⟨by decide, by decide, by decide⟩

/-- C1 (amended): a new value is "unchanged" (suppress publish) iff it
compares equal to the stored value under Python equality — which equates
numerically equal values of different kinds, such as 1 and 1.0 — or both
values are floats differing by less than 1e-5; apart from such cross-kind
numeric equality, values of differing runtime kind are always "changed";
and while the session is established a changed value triggers exactly one
data publish containing only that metric. -/
theorem C1_report_by_exception :
    (∀ v1 v2 : PValue, are_values_equal v1 v2 = true ↔
        pyEq v1 v2 = true ∨
          ∃ q1 q2 : ℚ, v1 = .float q1 ∧ v2 = .float q2 ∧
            |q1 - q2| < 1 / 100000)
    ∧ (∀ (st : NodeState) (name : String) (dt : Nat) (old v : PValue),
        storeGet st.metrics name = some (dt, old) →
        are_values_equal v old = true →
        set_metric_value st name v = (st, []))
    ∧ (∀ (st : NodeState) (name : String) (dt : Nat) (old v : PValue),
        storeGet st.metrics name = some (dt, old) →
        are_values_equal v old = false →
        st.sparkplug_session_established = true →
        set_metric_value st name v
          = ({ st with metrics := storeSet st.metrics name v,
                       seq := (st.seq + 1) % 256 },
             [.publish .ndata
                { hasTimestamp := true, seq := some st.seq,
                  metrics := [(name, dt, v)] } 0 false])) :=
  ⟨are_values_equal_iff, set_metric_value_unchanged, set_metric_value_changed⟩

/-- C1 witness: the publish branch evaluated at the established demo state,
setting the rebirth metric from false to true. -/
theorem C1_report_by_exception_witness :
    set_metric_value demoEstState "Node Control/Rebirth" (.bool true)
      = ({ demoEstState with
            metrics := storeSet demoEstState.metrics "Node Control/Rebirth"
              (.bool true),
            seq := (demoEstState.seq + 1) % 256 },
         [.publish .ndata
            { hasTimestamp := true, seq := some demoEstState.seq,
              metrics := [("Node Control/Rebirth", DataType.Boolean,
                .bool true)] } 0 false]) :=
  C1_report_by_exception.2.2 demoEstState "Node Control/Rebirth"
    DataType.Boolean (.bool false) (.bool true) (by decide) (by decide)
    (by decide)

/-! ### Usage errors (claim C8) -/

theorem set_metric_value_unknown (st : NodeState) (name : String)
    (v : PValue) (h : storeGet st.metrics name = none) :
    set_metric_value st name v
      = (st, [.report ("Metric " ++ name
          ++ " does not exist. Not setting value.")]) := by
  simp [set_metric_value, h]

theorem add_data_metric_duplicate (st : NodeState) (name : String)
    (dt : Nat) (v : PValue) (h : (storeGet st.metrics name).isSome = true) :
    add_data_metric st name dt v
      = (st, [.report ("Metric " ++ name ++ " already exists. Not adding.")])
    := by
  simp [add_data_metric, h]

theorem add_command_metric_duplicate (st : NodeState) (name : String)
    (dt : Nat) (v : PValue) (cb : Cmd)
    (h : (storeGet st.metrics name).isSome = true) :
    add_command_metric st name dt v cb
      = ({ st with commands := cmdSet st.commands name cb },
         [.report ("Metric " ++ name ++ " already exists. Not adding.")])
    := by
  unfold add_command_metric
  exact add_data_metric_duplicate _ name dt v h

theorem remove_metric_unknown (st : NodeState) (name : String)
    (h : storeGet st.metrics name = none) :
    remove_metric st name
      = (st, [.report ("Metric " ++ name
          ++ " does not exist. Not removing.")]) := by
  simp [remove_metric, h]

/-- C8 counterexample: adding a command metric under an existing name is
rejected as a duplicate, yet it still mutates observable state — the
callback has already been installed in the command table when the duplicate
check runs, so the node's state after the rejected call differs from the
state before it. -/
theorem C8_counterexample :
    (storeGet (initState demoCfg 0).metrics "Node Control/Rebirth").isSome
      = true
    ∧ (add_command_metric (initState demoCfg 0) "Node Control/Rebirth"
        DataType.Boolean (.bool false) (.user 7)).1 ≠ initState demoCfg 0 := by
  refine ⟨by decide, by decide⟩

/-- C8 (amended): setting a value for an unknown metric name, adding a
duplicate metric, and removing an unknown metric name are each non-fatal:
the operation is reported and skipped and nothing is published.  For
`set_metric_value`, `add_data_metric` and `remove_metric` no observable
state is mutated; `add_command_metric` on a duplicate name, however,
installs its callback in the command table before the duplicate check, so
the command table is mutated while the metric store, counters and session
flag stay unchanged. -/
theorem C8_usage_errors :
    (∀ (st : NodeState) (name : String) (v : PValue),
        storeGet st.metrics name = none →
        set_metric_value st name v
          = (st, [.report ("Metric " ++ name
              ++ " does not exist. Not setting value.")]))
    ∧ (∀ (st : NodeState) (name : String) (dt : Nat) (v : PValue),
        (storeGet st.metrics name).isSome = true →
        add_data_metric st name dt v
          = (st, [.report ("Metric " ++ name
              ++ " already exists. Not adding.")]))
    ∧ (∀ (st : NodeState) (name : String) (dt : Nat) (v : PValue) (cb : Cmd),
        (storeGet st.metrics name).isSome = true →
        add_command_metric st name dt v cb
          = ({ st with commands := cmdSet st.commands name cb },
             [.report ("Metric " ++ name ++ " already exists. Not adding.")]))
    ∧ (∀ (st : NodeState) (name : String),
        storeGet st.metrics name = none →
        remove_metric st name
          = (st, [.report ("Metric " ++ name
              ++ " does not exist. Not removing.")])) :=
  ⟨set_metric_value_unknown, add_data_metric_duplicate,
   add_command_metric_duplicate, remove_metric_unknown⟩

/-- C8 witness: the unknown-metric branch of `set_metric_value` evaluated at
the freshly constructed node. -/
theorem C8_usage_errors_witness :
    set_metric_value (initState demoCfg 0) "nope" (.int 5)
      = (initState demoCfg 0,
         [.report "Metric nope does not exist. Not setting value."]) :=
  C8_usage_errors.1 (initState demoCfg 0) "nope" (.int 5) (by decide)

/-! ### Counter policy (claims C6 and C7) -/

theorem increment_seq_iterate (k : Nat) :
    ∀ st : NodeState, st.seq < 256 →
      increment_seq^[k] st = { st with seq := (st.seq + k) % 256 } := by
  induction k with
  | zero =>
    intro st h
    rw [Function.iterate_zero_apply]
    have : st.seq % 256 = st.seq := Nat.mod_eq_of_lt h
    simp [this]
  | succ n ih =>
    intro st h
    rw [Function.iterate_succ_apply,
        ih (increment_seq st) (by simp [increment_seq]; omega)]
    have : ((st.seq + 1) % 256 + n) % 256 = (st.seq + (n + 1)) % 256 := by
      omega
    simp [increment_seq, this]

theorem increment_bdSeq_iterate (k : Nat) :
    ∀ st : NodeState, st.bdSeq < 256 →
      increment_bdSeq^[k] st = { st with bdSeq := (st.bdSeq + k) % 256 } := by
  induction k with
  | zero =>
    intro st h
    rw [Function.iterate_zero_apply]
    have : st.bdSeq % 256 = st.bdSeq := Nat.mod_eq_of_lt h
    simp [this]
  | succ n ih =>
    intro st h
    rw [Function.iterate_succ_apply,
        ih (increment_bdSeq st) (by simp [increment_bdSeq]; omega)]
    have : ((st.bdSeq + 1) % 256 + n) % 256 = (st.bdSeq + (n + 1)) % 256 := by
      omega
    simp [increment_bdSeq, this]

/-- C6: seq and bdSeq increment via (x+1) mod 256, so 256 increments return
a counter in range to its original value; a birth or data publish
increments seq exactly once whatever the number of metrics in the payload,
and a death publish leaves the state (seq included) unchanged. -/
theorem C6_counter_policy :
    (∀ st : NodeState, (increment_seq st).seq = (st.seq + 1) % 256)
    ∧ (∀ st : NodeState, (increment_bdSeq st).bdSeq = (st.bdSeq + 1) % 256)
    ∧ (∀ st : NodeState, st.seq < 256 → increment_seq^[256] st = st)
    ∧ (∀ st : NodeState, st.bdSeq < 256 → increment_bdSeq^[256] st = st)
    ∧ (∀ st : NodeState, (publish_nbirth st).1.seq = (st.seq + 1) % 256
        ∧ (publish_nbirth st).1.bdSeq = st.bdSeq
        ∧ (publish_nbirth st).2.countP isPublish = 1)
    ∧ (∀ (st : NodeState) (changed : List String),
        (publish_ndata st changed).1.seq = (st.seq + 1) % 256
        ∧ (publish_ndata st changed).1.bdSeq = st.bdSeq
        ∧ (publish_ndata st changed).2.countP isPublish = 1)
    ∧ (∀ st : NodeState, (publish_ndeath st).1 = st
        ∧ (publish_ndeath st).2.countP isPublish = 1) := by
  refine ⟨fun st => rfl, fun st => rfl, ?_, ?_, ?_, ?_, ?_⟩
  · intro st h
    rw [increment_seq_iterate 256 st h]
    have : (st.seq + 256) % 256 = st.seq := by omega
    simp [this]
  · intro st h
    rw [increment_bdSeq_iterate 256 st h]
    have : (st.bdSeq + 256) % 256 = st.bdSeq := by omega
    simp [this]
  · exact fun st => ⟨rfl, rfl, rfl⟩
  · exact fun st changed => ⟨rfl, rfl, rfl⟩
  · exact fun st => ⟨rfl, rfl⟩

/-- C6 witness: 256 seq increments return the freshly constructed node
(seq 0) to itself. -/
theorem C6_counter_policy_witness :
    increment_seq^[256] (initState demoCfg 0) = initState demoCfg 0 :=
  C6_counter_policy.2.2.1 (initState demoCfg 0) (by decide)

/-! ### Node Control/Rebirth (claim C10) -/

theorem runCmd_rebirth (st : NodeState) (v : Option PValue)
    (htr : truthy v = true)
    (hest : st.sparkplug_session_established = true) :
    runCmd st .rebirth "Node Control/Rebirth" v
      = (increment_seq st,
         [.invoke "Node Control/Rebirth" v,
          .publish .nbirth (get_nbirth_payload st) 0 false]) := by
  simp [runCmd, htr, hest, publish_nbirth]

/-- C10: a freshly constructed node already contains the metric
"Node Control/Rebirth" with Boolean datatype and value false, plus a
registered command for that name which, invoked with a truthy value while
the session is established, republishes the full birth certificate
(incrementing seq); and an attempt to add a data metric under that name is
rejected as a duplicate. -/
theorem C10_rebirth_builtin :
    (∀ (cfg : Config) (bd0 : Nat),
        storeGet (initState cfg bd0).metrics "Node Control/Rebirth"
          = some (DataType.Boolean, .bool false))
    ∧ (∀ (cfg : Config) (bd0 : Nat),
        cmdGet (initState cfg bd0).commands "Node Control/Rebirth"
          = some .rebirth)
    ∧ (∀ (st : NodeState) (v : Option PValue), truthy v = true →
        st.sparkplug_session_established = true →
        runCmd st .rebirth "Node Control/Rebirth" v
          = (increment_seq st,
             [.invoke "Node Control/Rebirth" v,
              .publish .nbirth (get_nbirth_payload st) 0 false]))
    ∧ (∀ (cfg : Config) (bd0 dt : Nat) (v : PValue),
        add_data_metric (initState cfg bd0) "Node Control/Rebirth" dt v
          = (initState cfg bd0,
             [.report ("Metric " ++ "Node Control/Rebirth"
                ++ " already exists. Not adding.")])) :=
  ⟨fun _ _ => rfl, fun _ _ => rfl, runCmd_rebirth,
   fun cfg bd0 dt v =>
     add_data_metric_duplicate (initState cfg bd0) "Node Control/Rebirth"
       dt v rfl⟩

/-- C10 witness: the rebirth command executed on the established demo state
with the truthy value True. -/
theorem C10_rebirth_builtin_witness :
    runCmd demoEstState .rebirth "Node Control/Rebirth" (some (.bool true))
      = (increment_seq demoEstState,
         [.invoke "Node Control/Rebirth" (some (.bool true)),
          .publish .nbirth (get_nbirth_payload demoEstState) 0 false]) :=
  C10_rebirth_builtin.2.2.1 demoEstState (some (.bool true)) (by decide)
    (by decide)

/-! ### Host arbitration (claim C5) -/

theorem host_stale (st : NodeState) (t t0 : Int) (o0 online : Bool)
    (hprev : st.prevHostMsg = some (t0, o0)) (hlt : t < t0) :
    handle_primary_host_state st t online = (st, []) := by
  have hacc : acceptHost st.prevHostMsg t = false := by
    rw [hprev]
    simp only [acceptHost, decide_eq_false_iff_not]
    omega
  simp [handle_primary_host_state, hacc]

theorem host_establish (st : NodeState) (t : Int)
    (hacc : acceptHost st.prevHostMsg t = true)
    (hest : st.sparkplug_session_established = false) :
    handle_primary_host_state st t true
      = ({ st with prevHostMsg := some (t, true),
                   sparkplug_session_established := true,
                   seq := (st.seq + 1) % 256 },
         [.publish .nbirth
            (get_nbirth_payload
              { st with prevHostMsg := some (t, true),
                        sparkplug_session_established := true }) 0 false])
    := by
  simp [handle_primary_host_state, hacc, hest,
    establish_sparkplug_session, publish_nbirth, increment_seq]

theorem host_terminate (st : NodeState) (t : Int)
    (hacc : acceptHost st.prevHostMsg t = true)
    (hest : st.sparkplug_session_established = true) :
    handle_primary_host_state st t false
      = ({ st with prevHostMsg := some (t, false),
                   sparkplug_session_established := false },
         [.publish .ndeath
            (get_ndeath_payload
              { st with prevHostMsg := some (t, false),
                        sparkplug_session_established := false }) 1 false])
    := by
  simp [handle_primary_host_state, hacc, hest,
    terminate_sparkplug_session, publish_ndeath]

theorem host_accept_idempotent (st : NodeState) (t : Int) (online : Bool)
    (hacc : acceptHost st.prevHostMsg t = true)
    (hsame : online = st.sparkplug_session_established) :
    handle_primary_host_state st t online
      = ({ st with prevHostMsg := some (t, online) }, []) := by
  subst hsame
  simp [handle_primary_host_state, hacc]

theorem host_sequence (st : NodeState) (hprev : st.prevHostMsg = none)
    (hest : st.sparkplug_session_established = false) :
    ((handle_primary_host_state st 100 true).2.countP isBirthPub = 1
      ∧ (handle_primary_host_state st 100 true).2.countP isDeathPub = 0)
    ∧ handle_primary_host_state
        (handle_primary_host_state st 100 true).1 50 false
        = ((handle_primary_host_state st 100 true).1, [])
    ∧ ((handle_primary_host_state
          (handle_primary_host_state st 100 true).1 200 false).2.countP
            isBirthPub = 0
      ∧ (handle_primary_host_state
          (handle_primary_host_state st 100 true).1 200 false).2.countP
            isDeathPub = 1) := by
  have hacc0 : acceptHost st.prevHostMsg 100 = true := by rw [hprev]; rfl
  have h1 := host_establish st 100 hacc0 hest
  refine ⟨?_, ?_, ?_⟩
  · rw [h1]
    exact ⟨rfl, rfl⟩
  · rw [h1]
    exact host_stale _ 50 100 true false rfl (by norm_num)
  · rw [h1]
    rw [host_terminate
      ({ st with prevHostMsg := some (100, true),
                 sparkplug_session_established := true,
                 seq := (st.seq + 1) % 256 }) 200 rfl rfl]
    exact ⟨rfl, rfl⟩

/-- C5: an inbound host-state message with a strictly stale timestamp
changes nothing and publishes nothing; an accepted message whose online
flag matches the current session status only records the new (timestamp,
online) pair, without establishing or terminating; and the sequence
(t=100,online=true), (t=50,online=false), (t=200,online=false) received
while awaiting the host yields exactly one birth (at t=100) and exactly
one death (at t=200), the stale t=50 message being ignored. -/
theorem C5_host_arbitration :
    (∀ (st : NodeState) (t t0 : Int) (o0 online : Bool),
        st.prevHostMsg = some (t0, o0) → t < t0 →
        handle_primary_host_state st t online = (st, []))
    ∧ (∀ (st : NodeState) (t : Int) (online : Bool),
        acceptHost st.prevHostMsg t = true →
        online = st.sparkplug_session_established →
        handle_primary_host_state st t online
          = ({ st with prevHostMsg := some (t, online) }, []))
    ∧ (∀ st : NodeState, st.prevHostMsg = none →
        st.sparkplug_session_established = false →
        ((handle_primary_host_state st 100 true).2.countP isBirthPub = 1
          ∧ (handle_primary_host_state st 100 true).2.countP isDeathPub = 0)
        ∧ handle_primary_host_state
            (handle_primary_host_state st 100 true).1 50 false
            = ((handle_primary_host_state st 100 true).1, [])
        ∧ ((handle_primary_host_state
              (handle_primary_host_state st 100 true).1 200 false).2.countP
                isBirthPub = 0
          ∧ (handle_primary_host_state
              (handle_primary_host_state st 100 true).1 200 false).2.countP
                isDeathPub = 1)) :=
  ⟨host_stale, host_accept_idempotent, host_sequence⟩

/-- C5 witness: the three-message arbitration sequence run from the freshly
constructed node (awaiting the host). -/
theorem C5_host_arbitration_witness :
    ((handle_primary_host_state (initState demoCfg 0) 100 true).2.countP
        isBirthPub = 1
      ∧ (handle_primary_host_state (initState demoCfg 0) 100 true).2.countP
          isDeathPub = 0)
    ∧ handle_primary_host_state
        (handle_primary_host_state (initState demoCfg 0) 100 true).1 50 false
        = ((handle_primary_host_state (initState demoCfg 0) 100 true).1, [])
    ∧ ((handle_primary_host_state
          (handle_primary_host_state (initState demoCfg 0) 100 true).1 200
            false).2.countP isBirthPub = 0
      ∧ (handle_primary_host_state
          (handle_primary_host_state (initState demoCfg 0) 100 true).1 200
            false).2.countP isDeathPub = 1) :=
  C5_host_arbitration.2.2 (initState demoCfg 0) rfl rfl

/-! ### Inbound command handling (claim C2) -/

theorem exists_ok {m : RawMetric} {hint : Option Nat}
    (h : (get_metric_value m hint).isOk = true) :
    ∃ v, get_metric_value m hint = .ok v := by
  cases hgv : get_metric_value m hint with
  | ok v => exact ⟨v, rfl⟩
  | error e => rw [hgv] at h; simp [Except.isOk, Except.toBool] at h

theorem handleNcmdGo_cons_ok (st : NodeState) (m : RawMetric)
    (rest : List RawMetric) (v : Option PValue)
    (hv : get_metric_value m (hintFor st m) = .ok v) :
    handleNcmdGo st (m :: rest)
      = ((handleNcmdGo (dispatchMetric st m v).1 rest).1,
         (dispatchMetric st m v).2
           ++ (handleNcmdGo (dispatchMetric st m v).1 rest).2.1,
         (handleNcmdGo (dispatchMetric st m v).1 rest).2.2) := by
  simp [handleNcmdGo, hv]

theorem runCmd_commands (st : NodeState) (c : Cmd) (name : String)
    (v : Option PValue) : (runCmd st c name v).1.commands = st.commands := by
  cases c with
  | rebirth =>
    cases h : (truthy v && st.sparkplug_session_established) with
    | true => simp [runCmd, h, publish_nbirth, increment_seq]
    | false => simp [runCmd, h]
  | user i => rfl

theorem runCmd_invoke_mem (st : NodeState) (c : Cmd) (name : String)
    (v : Option PValue) : Action.invoke name v ∈ (runCmd st c name v).2 := by
  cases c with
  | rebirth =>
    cases h : (truthy v && st.sparkplug_session_established) with
    | true => simp [runCmd, h]
    | false => simp [runCmd, h]
  | user i => simp [runCmd]

theorem dispatchMetric_commands (st : NodeState) (m : RawMetric)
    (v : Option PValue) : (dispatchMetric st m v).1.commands = st.commands
    := by
  cases hn : m.name with
  | none => simp [dispatchMetric, hn]
  | some nm =>
    cases hc : cmdGet st.commands nm with
    | none => simp [dispatchMetric, hn, hc]
    | some c => simp [dispatchMetric, hn, hc, runCmd_commands]

theorem get_metric_value_template (m : RawMetric)
    (hdt : m.datatype = some DataType.Template) :
    ∀ hint, get_metric_value m hint = .ok none := by
  intro hint
  unfold get_metric_value
  rw [hdt]
  rfl

theorem handleNcmdGo_abort (m : RawMetric) (ms2 : List RawMetric)
    (hm : ∀ hint, (get_metric_value m hint).isOk = false) :
    ∀ (ms1 : List RawMetric) (st : NodeState),
      (∀ m' ∈ ms1, ∀ hint, (get_metric_value m' hint).isOk = true) →
      ∃ e, handleNcmdGo st (ms1 ++ m :: ms2)
        = ((handleNcmdGo st ms1).1, (handleNcmdGo st ms1).2.1, some e) := by
  intro ms1
  induction ms1 with
  | nil =>
    intro st _
    obtain ⟨e, he⟩ : ∃ e, get_metric_value m (hintFor st m) = .error e := by
      cases hgv : get_metric_value m (hintFor st m) with
      | ok v =>
        have := hm (hintFor st m)
        rw [hgv] at this
        simp [Except.isOk, Except.toBool] at this
      | error e => exact ⟨e, rfl⟩
    exact ⟨e, by simp [handleNcmdGo, he]⟩
  | cons m1 t ih =>
    intro st hok
    obtain ⟨v, hv⟩ := exists_ok (hok m1 (by simp) (hintFor st m1))
    obtain ⟨e, he⟩ := ih (dispatchMetric st m1 v).1
      (fun m' h' hint => hok m' (by simp [h']) hint)
    refine ⟨e, ?_⟩
    rw [List.cons_append, handleNcmdGo_cons_ok st m1 (t ++ m :: ms2) v hv,
        handleNcmdGo_cons_ok st m1 t v hv, he]

theorem handleNcmdGo_invokes :
    ∀ (ms : List RawMetric) (st : NodeState),
      (∀ m' ∈ ms, ∀ hint, (get_metric_value m' hint).isOk = true) →
      ∀ m ∈ ms, ∀ nm, m.name = some nm →
        (cmdGet st.commands nm).isSome = true →
        ∃ v, Action.invoke nm v ∈ (handleNcmdGo st ms).2.1 := by
  intro ms
  induction ms with
  | nil =>
    intro st _ m hm
    exact absurd hm (List.not_mem_nil m)
  | cons m1 t ih =>
    intro st hok m hm nm hname hcmd
    obtain ⟨v1, hv1⟩ := exists_ok (hok m1 (by simp) (hintFor st m1))
    rw [handleNcmdGo_cons_ok st m1 t v1 hv1]
    rcases List.mem_cons.mp hm with hm1 | hmt
    · subst hm1
      obtain ⟨c, hc⟩ : ∃ c, cmdGet st.commands nm = some c := by
        cases hcg : cmdGet st.commands nm with
        | none => rw [hcg] at hcmd; simp at hcmd
        | some c => exact ⟨c, rfl⟩
      refine ⟨v1, List.mem_append_left _ ?_⟩
      simp only [dispatchMetric, hname, hc]
      exact runCmd_invoke_mem st c nm v1
    · have hcmd' :
          (cmdGet (dispatchMetric st m1 v1).1.commands nm).isSome = true := by
        rw [dispatchMetric_commands]
        exact hcmd
      obtain ⟨v, hv⟩ := ih (dispatchMetric st m1 v1).1
        (fun m' h' hint => hok m' (by simp [h']) hint) m hmt nm hname hcmd'
      exact ⟨v, List.mem_append_right _ hv⟩

/-- C2 counterexample: in a two-metric command message whose first metric is
a malformed BooleanArray (2 bytes, shorter than its 4-byte count header),
the raised decode error aborts the loop: the well-formed second metric,
whose name has a registered callback, is never dispatched — the handler
returns no actions at all. -/
theorem C2_counterexample :
    cmdGet demoEstState.commands "Node Control/Rebirth" = some .rebirth
    ∧ get_metric_value goodRebirthMetric none = .ok (some (.bool false))
    ∧ handleNcmdGo demoEstState [badBoolArrayMetric, goodRebirthMetric]
        = (demoEstState, [], some .structError) := by
  refine ⟨by decide, by decide, by decide⟩

/-- C2 (amended): a single metric with an unknown or unimplemented datatype
code does not abort its siblings — its value extraction merely reports and
yields None, and whenever every metric's extraction succeeds, every metric
whose name has a registered callback has its callback invoked; but a metric
whose extraction raises (e.g. an array whose byte length does not match its
element layout) aborts the loop: metrics before it are processed, metrics
after it are not (the exception is caught only at message level). -/
theorem C2_malformed_metric :
    (∀ m : RawMetric, m.datatype = some DataType.Template →
        ∀ hint, get_metric_value m hint = .ok none)
    ∧ (∀ (ms : List RawMetric) (st : NodeState),
        (∀ m' ∈ ms, ∀ hint, (get_metric_value m' hint).isOk = true) →
        ∀ m ∈ ms, ∀ nm, m.name = some nm →
          (cmdGet st.commands nm).isSome = true →
          ∃ v, Action.invoke nm v ∈ (handleNcmdGo st ms).2.1)
    ∧ (∀ (m : RawMetric) (ms2 : List RawMetric),
        (∀ hint, (get_metric_value m hint).isOk = false) →
        ∀ (ms1 : List RawMetric) (st : NodeState),
          (∀ m' ∈ ms1, ∀ hint, (get_metric_value m' hint).isOk = true) →
          ∃ e, handleNcmdGo st (ms1 ++ m :: ms2)
            = ((handleNcmdGo st ms1).1, (handleNcmdGo st ms1).2.1, some e))
    :=
  ⟨get_metric_value_template, handleNcmdGo_invokes, handleNcmdGo_abort⟩

/-- C2 witness: the abort behaviour evaluated on the established demo state
with the well-formed rebirth metric first and the malformed BooleanArray
metric second. -/
theorem C2_malformed_metric_witness :
    ∃ e, handleNcmdGo demoEstState
        ([goodRebirthMetric] ++ badBoolArrayMetric :: [])
      = ((handleNcmdGo demoEstState [goodRebirthMetric]).1,
         (handleNcmdGo demoEstState [goodRebirthMetric]).2.1, some e) :=
  C2_malformed_metric.2.2 badBoolArrayMetric [] (fun _ => rfl)
    [goodRebirthMetric] demoEstState
    (by
      intro m' hm' hint
      rcases List.mem_singleton.mp hm' with rfl
      rfl)

/-! ### Counter range and bdSeq correlation (claims C7 and C4) -/

theorem runCmd_facts (st : NodeState) (c : Cmd) (name : String)
    (v : Option PValue) :
    (runCmd st c name v).1.bdSeq = st.bdSeq
    ∧ (st.seq < 256 → (runCmd st c name v).1.seq < 256)
    ∧ (∀ p ∈ birthPayloads (runCmd st c name v).2,
        p.metrics.head? = some ("bdSeq", DataType.Int64,
          .int (st.bdSeq : Int)))
    ∧ (∀ n, Action.saveBdSeq n ∉ (runCmd st c name v).2) := by
  cases c with
  | rebirth =>
    cases h : (truthy v && st.sparkplug_session_established) with
    | true =>
      have hr : runCmd st .rebirth name v
          = (increment_seq st,
             [.invoke name v,
              .publish .nbirth (get_nbirth_payload st) 0 false]) := by
        simp [runCmd, h, publish_nbirth]
      rw [hr]
      refine ⟨rfl, fun _ => by simp [increment_seq]; omega, ?_, ?_⟩
      · intro p hp
        simp [birthPayloads] at hp
        subst hp
        rfl
      · intro n hn
        simp [List.mem_cons] at hn
    | false =>
      have hr : runCmd st .rebirth name v = (st, [.invoke name v]) := by
        simp [runCmd, h]
      rw [hr]
      exact ⟨rfl, fun hs => hs, by simp [birthPayloads], by simp⟩
  | user i =>
    exact ⟨rfl, fun hs => hs, by simp [runCmd, birthPayloads], by simp [runCmd]⟩

theorem dispatchMetric_facts (st : NodeState) (m : RawMetric)
    (v : Option PValue) :
    (dispatchMetric st m v).1.bdSeq = st.bdSeq
    ∧ (st.seq < 256 → (dispatchMetric st m v).1.seq < 256)
    ∧ (∀ p ∈ birthPayloads (dispatchMetric st m v).2,
        p.metrics.head? = some ("bdSeq", DataType.Int64,
          .int (st.bdSeq : Int)))
    ∧ (∀ n, Action.saveBdSeq n ∉ (dispatchMetric st m v).2) := by
  cases hn : m.name with
  | none =>
    have hr : dispatchMetric st m v = (st, []) := by
      simp [dispatchMetric, hn]
    rw [hr]
    exact ⟨rfl, fun hs => hs, by simp [birthPayloads], by simp⟩
  | some nm =>
    cases hc : cmdGet st.commands nm with
    | none =>
      have hr : dispatchMetric st m v = (st, []) := by
        simp [dispatchMetric, hn, hc]
      rw [hr]
      exact ⟨rfl, fun hs => hs, by simp [birthPayloads], by simp⟩
    | some c =>
      have hr : dispatchMetric st m v = runCmd st c nm v := by
        simp [dispatchMetric, hn, hc]
      rw [hr]
      exact runCmd_facts st c nm v

theorem handleNcmdGo_facts :
    ∀ (ms : List RawMetric) (st : NodeState),
      (handleNcmdGo st ms).1.bdSeq = st.bdSeq
      ∧ (st.seq < 256 → (handleNcmdGo st ms).1.seq < 256)
      ∧ (∀ p ∈ birthPayloads (handleNcmdGo st ms).2.1,
          p.metrics.head? = some ("bdSeq", DataType.Int64,
            .int (st.bdSeq : Int)))
      ∧ (∀ n, Action.saveBdSeq n ∉ (handleNcmdGo st ms).2.1) := by
  intro ms
  induction ms with
  | nil =>
    intro st
    exact ⟨rfl, fun hs => hs, by simp [handleNcmdGo, birthPayloads],
      by simp [handleNcmdGo]⟩
  | cons m t ih =>
    intro st
    cases hv : get_metric_value m (hintFor st m) with
    | error e =>
      have hr : handleNcmdGo st (m :: t) = (st, [], some e) := by
        simp [handleNcmdGo, hv]
      rw [hr]
      exact ⟨rfl, fun hs => hs, by simp [birthPayloads], by simp⟩
    | ok v =>
      rw [handleNcmdGo_cons_ok st m t v hv]
      have hd := dispatchMetric_facts st m v
      have hi := ih (dispatchMetric st m v).1
      refine ⟨by rw [hi.1, hd.1], fun hs => hi.2.1 (hd.2.1 hs), ?_, ?_⟩
      · intro p hp
        rw [birthPayloads, List.filterMap_append] at hp
        rcases List.mem_append.mp hp with h1 | h2
        · exact hd.2.2.1 p h1
        · have := hi.2.2.1 p h2
          rw [hd.1] at this
          exact this
      · intro n hn
        rcases List.mem_append.mp hn with h1 | h2
        · exact hd.2.2.2 n h1
        · exact hi.2.2.2 n h2

theorem step_counters (st : NodeState) (ev : Event)
    (h : st.seq < 256 ∧ st.bdSeq < 256) :
    (step st ev).1.seq < 256 ∧ (step st ev).1.bdSeq < 256 := by
  cases ev with
  | connect ok =>
    simp only [step, connect]
    cases ok with
    | false =>
      simp only [Bool.false_eq_true, if_false, increment_bdSeq]
      exact ⟨h.1, by omega⟩
    | true =>
      cases hp : st.cfg.primary_host_application_id with
      | none =>
        simp [hp, establish_sparkplug_session, publish_nbirth,
          increment_seq, increment_bdSeq]
        omega
      | some hid =>
        simp [hp, increment_bdSeq]
        exact ⟨h.1, by omega⟩
  | disconnect =>
    simp only [step, disconnect]
    cases hs : st.sparkplug_session_established with
    | true =>
      simp [hs, terminate_sparkplug_session, publish_ndeath]
      exact ⟨h.1, h.2⟩
    | false =>
      simp [hs]
      exact ⟨h.1, h.2⟩
  | hostMsg t online =>
    simp only [step, handle_primary_host_state]
    split
    · split
      · simp [establish_sparkplug_session, publish_nbirth, increment_seq]
        exact ⟨by omega, h.2⟩
      · split
        · simp [terminate_sparkplug_session, publish_ndeath]
          exact ⟨h.1, h.2⟩
        · exact ⟨h.1, h.2⟩
    · exact ⟨h.1, h.2⟩
  | ncmd ms =>
    have hc := handleNcmdGo_facts ms st
    exact ⟨hc.2.1 h.1, by rw [show (step st (.ncmd ms)).1
      = (handleNcmdGo st ms).1 from rfl, hc.1]; exact h.2⟩
  | setMetric n v =>
    simp only [step, set_metric_value]
    split
    · exact ⟨h.1, h.2⟩
    · split
      · exact ⟨h.1, h.2⟩
      · split
        · simp [publish_ndata, increment_seq]
          exact ⟨by omega, h.2⟩
        · exact ⟨h.1, h.2⟩
  | addData n dt v =>
    simp only [step, add_data_metric]
    split
    · exact ⟨h.1, h.2⟩
    · split
      · simp [publish_nbirth, increment_seq]
        exact ⟨by omega, h.2⟩
      · exact ⟨h.1, h.2⟩
  | addCommand n dt v cb =>
    simp only [step, add_command_metric, add_data_metric]
    split
    · exact ⟨h.1, h.2⟩
    · split
      · simp [publish_nbirth, increment_seq]
        exact ⟨by omega, h.2⟩
      · exact ⟨h.1, h.2⟩
  | removeMetric n =>
    simp only [step, remove_metric]
    split
    · exact ⟨h.1, h.2⟩
    · split
      · simp [publish_nbirth, increment_seq]
        exact ⟨by omega, h.2⟩
      · exact ⟨h.1, h.2⟩

theorem reachable_counters (st : NodeState) (h : Reachable st) :
    st.seq < 256 ∧ st.bdSeq < 256 := by
  induction h with
  | init cfg bd0 hb => exact ⟨by simp [initState], hb⟩
  | next st ev _ ih => exact step_counters st ev ih

theorem saveBdSeq_value (st : NodeState) (ev : Event) (n : Nat)
    (hmem : Action.saveBdSeq n ∈ (step st ev).2) :
    n = (st.bdSeq + 1) % 256 := by
  cases ev with
  | connect ok =>
    cases ok with
    | false =>
      simp [step, connect] at hmem
    | true =>
      cases hp : st.cfg.primary_host_application_id with
      | none =>
        simp [step, connect, hp, establish_sparkplug_session,
          publish_nbirth, increment_bdSeq] at hmem
        exact hmem
      | some hid =>
        simp [step, connect, hp, increment_bdSeq] at hmem
        exact hmem
  | disconnect =>
    simp only [step, disconnect] at hmem
    cases hs : st.sparkplug_session_established <;>
      simp [hs, terminate_sparkplug_session, publish_ndeath] at hmem
  | hostMsg t online =>
    simp only [step, handle_primary_host_state] at hmem
    split at hmem
    · split at hmem
      · simp [establish_sparkplug_session, publish_nbirth] at hmem
      · split at hmem
        · simp [terminate_sparkplug_session, publish_ndeath] at hmem
        · simp at hmem
    · simp at hmem
  | ncmd ms =>
    have hc := (handleNcmdGo_facts ms st).2.2.2
    simp only [step, handle_ncmd_msg] at hmem
    rcases List.mem_append.mp hmem with h1 | h2
    · exact absurd h1 (hc n)
    · split at h2 <;> simp at h2
  | setMetric nm v =>
    simp only [step, set_metric_value] at hmem
    split at hmem
    · simp at hmem
    · split at hmem
      · simp at hmem
      · split at hmem
        · simp [publish_ndata] at hmem
        · simp at hmem
  | addData nm dt v =>
    simp only [step, add_data_metric] at hmem
    split at hmem
    · simp at hmem
    · split at hmem
      · simp [publish_nbirth] at hmem
      · simp at hmem
  | addCommand nm dt v cb =>
    simp only [step, add_command_metric, add_data_metric] at hmem
    split at hmem
    · simp at hmem
    · split at hmem
      · simp [publish_nbirth] at hmem
      · simp at hmem
  | removeMetric nm =>
    simp only [step, remove_metric] at hmem
    split at hmem
    · simp at hmem
    · split at hmem
      · simp [publish_nbirth] at hmem
      · simp at hmem

/-- C7: in every reachable state seq and bdSeq lie in [0,255]; the initial
bdSeq is the loaded value (a previously persisted value or the 0 default),
and every value the node persists is itself in [0,255], closing the loop. -/
theorem C7_counter_range (st : NodeState) (h : Reachable st) :
    (st.seq < 256 ∧ st.bdSeq < 256)
    ∧ ∀ (ev : Event) (n : Nat),
        Action.saveBdSeq n ∈ (step st ev).2 → n < 256 :=
  ⟨reachable_counters st h,
   fun ev n hmem => by rw [saveBdSeq_value st ev n hmem]; omega⟩

/-- C7 witness: the counters of the freshly constructed node are in
range. -/
theorem C7_counter_range_witness :
    (initState demoCfg 0).seq < 256 ∧ (initState demoCfg 0).bdSeq < 256 :=
  (C7_counter_range (initState demoCfg 0)
    (Reachable.init demoCfg 0 (by norm_num))).1

theorem step_bdSeq_births (st : NodeState) (ev : Event)
    (hev : ∀ b, ev ≠ .connect b) :
    (step st ev).1.bdSeq = st.bdSeq
    ∧ ∀ p ∈ birthPayloads (step st ev).2,
        p.metrics.head? = some ("bdSeq", DataType.Int64,
          .int (st.bdSeq : Int)) := by
  cases ev with
  | connect ok => exact absurd rfl (hev ok)
  | disconnect =>
    cases hs : st.sparkplug_session_established with
    | true =>
      constructor
      · simp [step, disconnect, hs, terminate_sparkplug_session,
          publish_ndeath]
      · intro p hp
        simp [step, disconnect, hs, terminate_sparkplug_session,
          publish_ndeath, birthPayloads] at hp
    | false =>
      constructor
      · simp [step, disconnect, hs]
      · intro p hp
        simp [step, disconnect, hs, birthPayloads] at hp
  | hostMsg t online =>
    constructor
    · simp only [step, handle_primary_host_state]
      split
      · split
        · simp [establish_sparkplug_session, publish_nbirth, increment_seq]
        · split
          · simp [terminate_sparkplug_session, publish_ndeath]
          · rfl
      · rfl
    · intro p hp
      simp only [step, handle_primary_host_state] at hp
      split at hp
      · split at hp
        · simp [establish_sparkplug_session, publish_nbirth,
            birthPayloads] at hp
          subst hp
          rfl
        · split at hp
          · simp [terminate_sparkplug_session, publish_ndeath,
              birthPayloads] at hp
          · simp [birthPayloads] at hp
      · simp [birthPayloads] at hp
  | ncmd ms =>
    have hf := handleNcmdGo_facts ms st
    constructor
    · exact hf.1
    · intro p hp
      have hb : birthPayloads (step st (.ncmd ms)).2
          = birthPayloads (handleNcmdGo st ms).2.1 := by
        show birthPayloads ((handleNcmdGo st ms).2.1 ++ _) = _
        rw [birthPayloads, List.filterMap_append]
        cases herr : (handleNcmdGo st ms).2.2 <;> simp [birthPayloads]
      rw [hb] at hp
      exact hf.2.2.1 p hp
  | setMetric nm v =>
    constructor
    · simp only [step, set_metric_value]
      split
      · rfl
      · split
        · rfl
        · split
          · simp [publish_ndata, increment_seq]
          · rfl
    · intro p hp
      simp only [step, set_metric_value] at hp
      split at hp
      · simp [birthPayloads] at hp
      · split at hp
        · simp [birthPayloads] at hp
        · split at hp
          · simp [publish_ndata, birthPayloads] at hp
          · simp [birthPayloads] at hp
  | addData nm dt v =>
    constructor
    · simp only [step, add_data_metric]
      split
      · rfl
      · split
        · simp [publish_nbirth, increment_seq]
        · rfl
    · intro p hp
      simp only [step, add_data_metric] at hp
      split at hp
      · simp [birthPayloads] at hp
      · split at hp
        · simp [publish_nbirth, birthPayloads] at hp
          subst hp
          rfl
        · simp [birthPayloads] at hp
  | addCommand nm dt v cb =>
    constructor
    · simp only [step, add_command_metric, add_data_metric]
      split
      · rfl
      · split
        · simp [publish_nbirth, increment_seq]
        · rfl
    · intro p hp
      simp only [step, add_command_metric, add_data_metric] at hp
      split at hp
      · simp [birthPayloads] at hp
      · split at hp
        · simp [publish_nbirth, birthPayloads] at hp
          subst hp
          rfl
        · simp [birthPayloads] at hp
  | removeMetric nm =>
    constructor
    · simp only [step, remove_metric]
      split
      · rfl
      · split
        · simp [publish_nbirth, increment_seq]
        · rfl
    · intro p hp
      simp only [step, remove_metric] at hp
      split at hp
      · simp [birthPayloads] at hp
      · split at hp
        · simp [publish_nbirth, birthPayloads] at hp
          subst hp
          rfl
        · simp [birthPayloads] at hp

theorem runEvents_births :
    ∀ (evs : List Event) (st : NodeState),
      (∀ e ∈ evs, ∀ b, e ≠ .connect b) →
      (runEvents st evs).1.bdSeq = st.bdSeq
      ∧ ∀ p ∈ birthPayloads (runEvents st evs).2,
          p.metrics.head? = some ("bdSeq", DataType.Int64,
            .int (st.bdSeq : Int)) := by
  intro evs
  induction evs with
  | nil =>
    intro st _
    exact ⟨rfl, by simp [runEvents, birthPayloads]⟩
  | cons e t ih =>
    intro st hnc
    have hs := step_bdSeq_births st e (hnc e (by simp))
    have hi := ih (step st e).1 (fun e' he' b => hnc e' (by simp [he']) b)
    constructor
    · show (runEvents (step st e).1 t).1.bdSeq = st.bdSeq
      rw [hi.1, hs.1]
    · intro p hp
      have hb : birthPayloads (runEvents st (e :: t)).2
          = birthPayloads (step st e).2
            ++ birthPayloads (runEvents (step st e).1 t).2 := by
        show birthPayloads ((step st e).2 ++ _) = _
        rw [birthPayloads, birthPayloads, birthPayloads,
          List.filterMap_append]
      rw [hb] at hp
      rcases List.mem_append.mp hp with h1 | h2
      · exact hs.2 p h1
      · have := hi.2 p h2
        rw [hs.1] at this
        exact this

theorem connect_facts (st : NodeState) (ok : Bool) :
    (connect st ok).1.bdSeq = (st.bdSeq + 1) % 256
    ∧ (connect st ok).2.take 3
        = [.setLastWill .ndeath (get_ndeath_payload (increment_bdSeq st))
             1 false,
           .setCallback, .mqttConnect]
    ∧ (get_ndeath_payload (increment_bdSeq st)).metrics
        = [("bdSeq", DataType.Int64,
            .int (((st.bdSeq + 1) % 256 : Nat) : Int))]
    ∧ ((∃ n, Action.saveBdSeq n ∈ (connect st ok).2) ↔ ok = true)
    ∧ (ok = true →
        Action.saveBdSeq ((st.bdSeq + 1) % 256) ∈ (connect st ok).2.drop 3)
    ∧ (∀ p ∈ birthPayloads (connect st ok).2,
        p.metrics.head? = some ("bdSeq", DataType.Int64,
          .int (((st.bdSeq + 1) % 256 : Nat) : Int))) := by
  cases ok with
  | false =>
    have hr : connect st false
        = (increment_bdSeq st,
           [.setLastWill .ndeath (get_ndeath_payload (increment_bdSeq st))
              1 false,
            .setCallback, .mqttConnect]) := by
      simp [connect]
    rw [hr]
    refine ⟨rfl, rfl, rfl, ?_, ?_, ?_⟩
    · constructor
      · rintro ⟨n, hn⟩
        simp at hn
      · intro h
        exact absurd h (by simp)
    · intro h
      exact absurd h (by simp)
    · intro p hp
      simp [birthPayloads] at hp
  | true =>
    cases hp : st.cfg.primary_host_application_id with
    | some hid =>
      have hr : connect st true
          = ({ st with connected := true, bdSeq := (st.bdSeq + 1) % 256 },
             [.setLastWill .ndeath
                (get_ndeath_payload (increment_bdSeq st)) 1 false,
              .setCallback, .mqttConnect,
              .saveBdSeq ((st.bdSeq + 1) % 256),
              .report "Connected to MQTT Broker",
              .subscribe .ncmd 1, .subscribe .hostState 1]) := by
        simp [connect, hp, increment_bdSeq]
      rw [hr]
      refine ⟨rfl, rfl, rfl, ?_, ?_, ?_⟩
      · exact ⟨fun _ => rfl, fun _ => ⟨(st.bdSeq + 1) % 256, by simp⟩⟩
      · intro _
        simp
      · intro p hpb
        simp [birthPayloads] at hpb
    | none =>
      have hr : connect st true
          = ({ st with connected := true,
                       sparkplug_session_established := true,
                       bdSeq := (st.bdSeq + 1) % 256,
                       seq := (st.seq + 1) % 256 },
             [.setLastWill .ndeath
                (get_ndeath_payload (increment_bdSeq st)) 1 false,
              .setCallback, .mqttConnect,
              .saveBdSeq ((st.bdSeq + 1) % 256),
              .report "Connected to MQTT Broker",
              .subscribe .ncmd 1,
              .publish .nbirth
                (get_nbirth_payload
                  { st with connected := true,
                            sparkplug_session_established := true,
                            bdSeq := (st.bdSeq + 1) % 256 }) 0 false]) := by
        simp [connect, hp, increment_bdSeq, establish_sparkplug_session,
          publish_nbirth, increment_seq]
      rw [hr]
      refine ⟨rfl, rfl, rfl, ?_, ?_, ?_⟩
      · exact ⟨fun _ => rfl, fun _ => ⟨(st.bdSeq + 1) % 256, by simp⟩⟩
      · intro _
        simp
      · intro p hpb
        simp [birthPayloads] at hpb
        subst hpb
        rfl

/-- C4: on every call to connect, bdSeq is incremented exactly once, the
death-certificate last-will carrying the incremented value is registered
before the physical connect, the incremented value is persisted (saved)
only when — and after — the connect succeeds, and the bdSeq embedded in the
registered death certificate equals the bdSeq embedded in every birth
certificate published for the session that follows (connect-free event
sequences). -/
theorem C4_connect_bdSeq (st : NodeState) (ok : Bool) :
    (connect st ok).1.bdSeq = (st.bdSeq + 1) % 256
    ∧ (connect st ok).2.take 3
        = [.setLastWill .ndeath (get_ndeath_payload (increment_bdSeq st))
             1 false,
           .setCallback, .mqttConnect]
    ∧ (get_ndeath_payload (increment_bdSeq st)).metrics
        = [("bdSeq", DataType.Int64,
            .int (((st.bdSeq + 1) % 256 : Nat) : Int))]
    ∧ ((∃ n, Action.saveBdSeq n ∈ (connect st ok).2) ↔ ok = true)
    ∧ (ok = true →
        Action.saveBdSeq ((st.bdSeq + 1) % 256) ∈ (connect st ok).2.drop 3)
    ∧ (∀ p ∈ birthPayloads (connect st ok).2,
        p.metrics.head? = some ("bdSeq", DataType.Int64,
          .int (((st.bdSeq + 1) % 256 : Nat) : Int)))
    ∧ (∀ evs : List Event, (∀ e ∈ evs, ∀ b, e ≠ .connect b) →
        ∀ p ∈ birthPayloads (runEvents (connect st ok).1 evs).2,
          p.metrics.head? = some ("bdSeq", DataType.Int64,
            .int (((st.bdSeq + 1) % 256 : Nat) : Int))) := by
  have hc := connect_facts st ok
  refine ⟨hc.1, hc.2.1, hc.2.2.1, hc.2.2.2.1, hc.2.2.2.2.1,
    hc.2.2.2.2.2, ?_⟩
  intro evs hnc p hpb
  have := (runEvents_births evs (connect st ok).1 hnc).2 p hpb
  rw [hc.1] at this
  exact this

/-- C4 witness: connecting the freshly constructed node successfully saves
the incremented bdSeq after the physical connect. -/
theorem C4_connect_bdSeq_witness :
    Action.saveBdSeq (((initState demoCfg 0).bdSeq + 1) % 256)
      ∈ (connect (initState demoCfg 0) true).2.drop 3 :=
  (C4_connect_bdSeq (initState demoCfg 0) true).2.2.2.2.1 rfl

end SparkplugB
